import Mathlib

/-
Shallow embedding of the Task Priority Scoring and Time-Slot Allocation
Engine of webfaith/taskmanagement (src/ai_service/main.py).

Conventions of the embedding:
* Timestamps are exact rationals, counted in seconds since an arbitrary
  epoch.  Python's `datetime.fromisoformat` on a date-only string
  "YYYY-MM-DD" yields midnight of that day; we model that day as an
  integer day index `k`, midnight being `86400 * k` seconds.
* A free-time window's `start_time` / `end_time` are "HH:MM" strings in
  the source; we encode each as its minute-of-day (`60*H + M`), the value
  obtained by `int(parts[0]) * 60 + int(parts[1])` after the `split(':')`
  in `allocate_task_to_slot`.  A representable "HH:MM" string accepted by
  `datetime.replace` has a minute-of-day in `[0, 1439]`.
* Python floats are modelled as exact rationals.  Every weight in the
  scorer (0.35, 0.25, ...) is a decimal literal, read exactly into `ℚ`.
* Dynamically-typed dictionary fields that the engine reads are modelled
  by `FieldVal`: the key can be absent (`missing`, a `KeyError` on
  subscripting), present with a value of the wrong shape (`invalid`, a
  `ValueError`/`TypeError` when parsed or used in arithmetic), or present
  and well-formed (`val`).
* Exceptions are modelled with `Except PyError`; the in-place mutation of
  the window list in `allocate_task_to_slot` is modelled by returning the
  updated list alongside the optional assignment (explicit state passing,
  as spec section 9 prescribes).
-/

namespace TaskMgmt

/-- A dynamically-typed dictionary field: absent key, present but
unparseable/non-numeric value, or a well-formed value. -/
inductive FieldVal (α : Type) where
  | missing : FieldVal α
  | invalid : FieldVal α
  | val : α → FieldVal α
deriving DecidableEq, Repr

/-- The Python exception kinds the engine can raise while scoring or
allocating. -/
inductive PyError where
  | keyError : PyError
  | valueError : PyError
  | typeError : PyError
deriving DecidableEq, Repr

/-- A free-time window, `{'start_time': 'HH:MM', 'end_time': 'HH:MM'}` in
the source, each time encoded as its minute-of-day. -/
structure Slot where
  startMin : ℤ
  endMin : ℤ
deriving DecidableEq, Repr

/-- The task dictionary as the scheduling core reads it after
`document_to_task`; fields the core never reads (description, tags,
recurrence, audit timestamps) are omitted.  `deadline` holds the parsed
timestamp in epoch seconds when the stored ISO string parses. -/
structure Task where
  id : String
  title : String
  category : Option String
  priority : FieldVal ℤ
  deadline : FieldVal ℚ
  estimated_hours : FieldVal ℚ
  energy_level : Option String
  status : String
  priority_score : Option ℚ
deriving DecidableEq, Repr

/-- A stored Appwrite task document, restricted to the attributes
`document_to_task` and the `/schedule/optimize` query read. -/
structure TaskDoc where
  id : String
  title : Option String
  category : Option String
  priority : FieldVal ℤ
  deadline : FieldVal ℚ
  estimated_hours : FieldVal ℚ
  energy_level : Option String
  status : Option String
deriving DecidableEq, Repr

/-- The dictionary returned by a successful `allocate_task_to_slot`;
`scheduled_start` / `scheduled_end` are epoch-second timestamps (ISO
strings in the source). -/
structure Assignment where
  task_id : String
  task_title : String
  scheduled_start : ℚ
  scheduled_end : ℚ
  duration_hours : ℚ
  priority_score : ℚ
deriving DecidableEq, Repr

/-- Midnight of the day containing epoch-second timestamp `t`. -/
def dayStartSec (t : ℚ) : ℚ := 86400 * (⌊t / 86400⌋ : ℤ)

/-- The `.hour` component of the datetime at epoch-second `t`. -/
def hourOf (t : ℚ) : ℤ := ⌊(t - dayStartSec t) / 3600⌋

/-- Python's `round(x, 4)`.  Every total score this engine rounds is an
exact multiple of 1/200 (so `x * 10000` is an integer multiple of 50)
whenever the task's priority is an integer, hence every tie-breaking rule
for halves agrees there; we use round-half-up. -/
def round4 (q : ℚ) : ℚ := ((round (q * 10000) : ℤ) : ℚ) / 10000

/-- Lines 740-752 of main.py: the deadline-urgency step function of
`hours_until_deadline`. -/
def urgency_score (hours_until_deadline : ℚ) : ℚ :=
  if hours_until_deadline ≤ 1 then 1.0
  else if hours_until_deadline ≤ 6 then 0.9
  else if hours_until_deadline ≤ 24 then 0.8
  else if hours_until_deadline ≤ 48 then 0.6
  else if hours_until_deadline ≤ 168 then 0.4
  else 0.2

/-- Lines 761-766 of main.py: `category_scores.get(category, 0.5)`. -/
def category_scores (category : String) : ℚ :=
  if category = "academic" then 1.0
  else if category = "work" then 0.8
  else if category = "personal" then 0.6
  else 0.5

/-- Lines 769-773 of main.py: the nested energy dictionary,
`energy_scores.get(current_energy, {}).get(task_energy, 0.5)`.  The outer
key is always one of the three buckets by construction; a missing inner
key falls back to 0.5. -/
def energy_scores (current_energy task_energy : String) : ℚ :=
  if current_energy = "high" then
    (if task_energy = "high" then 1.0
     else if task_energy = "medium" then 0.7
     else if task_energy = "low" then 0.3
     else 0.5)
  else if current_energy = "medium" then
    (if task_energy = "high" then 0.7
     else if task_energy = "medium" then 1.0
     else if task_energy = "low" then 0.5
     else 0.5)
  else if current_energy = "low" then
    (if task_energy = "high" then 0.3
     else if task_energy = "medium" then 0.5
     else if task_energy = "low" then 1.0
     else 0.5)
  else 0.5

/-- Lines 775-781 of main.py: the current-energy bucket derived from the
target datetime's `.hour`. -/
def current_energy_of (current_hour : ℤ) : String :=
  if 6 ≤ current_hour ∧ current_hour < 12 then "high"
  else if 12 ≤ current_hour ∧ current_hour < 18 then "medium"
  else "low"

/-- Lines 724-791 of main.py, `calculate_priority_score`.
`task['deadline']` raises `KeyError` when absent and
`datetime.fromisoformat` raises `ValueError` when the stored string does
not parse (the `None` a missing document attribute turns into raises a
`TypeError`; every non-`val` state is an error either way).
`task['priority']` raises `KeyError` when absent, and a present
non-numeric value raises `TypeError` at `(6 - priority_value)`.
`estimated_hours` is never read here. -/
def calculate_priority_score (task : Task) (now target_date : ℚ) :
    Except PyError ℚ :=
  match task.deadline with
  | .missing => .error .keyError
  | .invalid => .error .valueError
  | .val deadline =>
    let hours_until_deadline : ℚ := max 0 ((deadline - now) / 3600)
    let deadline_score := urgency_score hours_until_deadline * 0.35
    match task.priority with
    | .missing => .error .keyError
    | .invalid => .error .typeError
    | .val priority_value =>
      let importance_score := (6 - (priority_value : ℚ)) / 5 * 0.25
      let category_score := category_scores (task.category.getD "") * 0.15
      let current_energy := current_energy_of (hourOf target_date)
      let energy_match :=
        energy_scores current_energy (task.energy_level.getD "medium")
      let energy_score := energy_match * 0.15
      let user_preference_score : ℚ := 0.5 * 0.10
      .ok (round4 (deadline_score + importance_score + category_score +
        energy_score + user_preference_score))

/-- Line 796 of main.py, `task.get('estimated_hours', 1)`: an absent key
defaults to 1; a present non-numeric value is returned as-is and first
raises `TypeError` at the comparison `slot_duration >= estimated_hours`,
which we signal with `none`. -/
def get_estimated_hours : FieldVal ℚ → Option ℚ
  | .missing => some 1
  | .invalid => none
  | .val q => some q

/-- Duration in hours of a window,
`(slot_end - slot_start).total_seconds() / 3600` at line 815: the two
datetimes share the target date, so the difference is the minute-of-day
difference times 60 seconds. -/
def slotDurationHours (s : Slot) : ℚ := ((s.endMin : ℚ) - s.startMin) * 60 / 3600

/-- Line 819 of main.py: the consumed window's new `start_time` string,
`(slot_start + timedelta(hours=e)).strftime('%H:%M')`.  Formatting keeps
only the hour and minute components: the resulting minute-of-day is
`floor((startMin*60 + e*3600) / 60) mod 1440`, i.e. sub-minute amounts of
the advance are truncated away and a crossing of midnight wraps. -/
def advancedStartMin (startMin : ℤ) (e : ℚ) : ℤ :=
  (startMin + ⌊e * 60⌋) % 1440

/-- The loop body of lines 798-828 of main.py, scanning the window list in
its given order.  The in-place mutation of the chosen window is modelled
by returning the updated list. -/
def allocGo (task : Task) (base : ℚ) :
    List Slot → Except PyError (Option Assignment × List Slot)
  | [] => .ok (none, [])
  | slot :: rest =>
    match get_estimated_hours task.estimated_hours with
    | none => .error .typeError
    | some estimated_hours =>
      let slot_start := base + 60 * (slot.startMin : ℚ)
      let slot_duration := slotDurationHours slot
      if slot_duration ≥ estimated_hours then
        .ok (some
          { task_id := task.id
            task_title := task.title
            scheduled_start := slot_start
            scheduled_end := slot_start + 3600 * estimated_hours
            duration_hours := estimated_hours
            priority_score := task.priority_score.getD 0 },
          { slot with startMin := advancedStartMin slot.startMin estimated_hours }
            :: rest)
      else
        match allocGo task base rest with
        | .error e => .error e
        | .ok (r, rest') => .ok (r, slot :: rest')

/-- Lines 794-830 of main.py, `allocate_task_to_slot`.  `target_date` is
the datetime whose date the windows' "HH:MM" times are placed on via
`target_date.replace(hour=H, minute=M, second=0, microsecond=0)`, i.e.
midnight of `target_date`'s day plus the minute-of-day. -/
def allocate_task_to_slot (task : Task) (free_slots : List Slot)
    (target_date : ℚ) : Except PyError (Option Assignment × List Slot) :=
  allocGo task (dayStartSec target_date) free_slots

/-- Lines 181-209 of main.py, `document_to_task`, restricted to the fields
the scheduling core reads.  A document with no `deadline` attribute yields
a task whose `'deadline'` key holds `None`, which `fromisoformat` then
rejects — hence `missing` becomes `invalid` here.  `priority` defaults to
3 and `estimated_hours` to 0 when absent. -/
def document_to_task (doc : TaskDoc) : Task :=
  { id := doc.id
    title := doc.title.getD ""
    category := some (doc.category.getD "")
    priority := match doc.priority with
      | .missing => .val 3
      | p => p
    deadline := match doc.deadline with
      | .missing => .invalid
      | d => d
    estimated_hours := match doc.estimated_hours with
      | .missing => .val 0
      | e => e
    energy_level := some (doc.energy_level.getD "medium")
    status := doc.status.getD "todo"
    priority_score := none }

/-- Lines 691-705 of main.py: the allocation loop of `optimize_schedule`.
Each task is allocated against the window list left by the previous
allocations; successful assignments are collected (the database write-back
of `scheduled_start` / `scheduled_end` is outside the modelled core). -/
def allocateAll (target_date : ℚ) :
    List Task → List Slot → Except PyError (List Assignment × List Slot)
  | [], slots => .ok ([], slots)
  | task :: tasks, slots =>
    match allocate_task_to_slot task slots target_date with
    | .error e => .error e
    | .ok (none, slots') => allocateAll target_date tasks slots'
    | .ok (some a, slots') =>
      match allocateAll target_date tasks slots' with
      | .error e => .error e
      | .ok (later, slots'') => .ok (a :: later, slots'')

/-- The score a scored-task dictionary sorts by,
`x['priority_score']` (always set by the loop that builds the list). -/
def scoreOf (t : Task) : ℚ := t.priority_score.getD 0

/-- Stable insertion of a task into a list already sorted by
`priority_score` descending: walk past strictly greater scores, stop at
the first score less than or equal, so earlier-fetched tasks stay ahead of
equal-scored later ones. -/
def insertByScore (t : Task) : List Task → List Task
  | [] => [t]
  | u :: us =>
    if scoreOf u > scoreOf t then u :: insertByScore t us
    else t :: u :: us

/-- Line 687 of main.py,
`scored_tasks.sort(key=lambda x: x['priority_score'], reverse=True)`:
Python's stable descending sort, modelled as stable insertion sort. -/
def sortByScoreDesc : List Task → List Task
  | [] => []
  | t :: ts => insertByScore t (sortByScoreDesc ts)

/-- The result dictionary of `optimize_schedule` (lines 707-719); the
static `scoring_breakdown` strings are omitted. -/
structure OptimizeResult where
  date : ℚ
  optimized_tasks : List Assignment
  total_tasks : ℕ
  allocated_tasks : ℕ
deriving DecidableEq, Repr

/-- Lines 670-719 of main.py: the part of `optimize_schedule` after the
two store reads — substitute the default window when none is stored,
score every task, sort by score descending, allocate in that order, and
assemble the result. -/
def run_pipeline (tasks : List Task) (stored_free_slots : List Slot)
    (now target_date : ℚ) : Except PyError OptimizeResult :=
  let free_slots :=
    if stored_free_slots = [] then [⟨480, 1320⟩] else stored_free_slots
  match tasks.mapM (fun t =>
      (calculate_priority_score t now target_date).map
        (fun s => { t with priority_score := some s })) with
  | .error e => .error e
  | .ok scored_tasks =>
    match allocateAll target_date (sortByScoreDesc scored_tasks) free_slots with
    | .error e => .error e
    | .ok (optimized_schedule, _) =>
      .ok { date := target_date
            optimized_tasks := optimized_schedule
            total_tasks := scored_tasks.length
            allocated_tasks := optimized_schedule.length }

/-- The query filter of lines 646-651: keep documents whose `status` is
not `'completed'` and whose `deadline` lies within
`[date T00:00:00, date T23:59:59]`.  The store compares the stored ISO
strings lexicographically, which agrees with chronological order on the
parsed timestamps; documents whose deadline attribute is absent or
malformed never satisfy the range condition. -/
def queryKeeps (dayStart : ℚ) (doc : TaskDoc) : Bool :=
  (match doc.status with
   | some s => s ≠ "completed"
   | none => true) &&
  (match doc.deadline with
   | .val d => dayStart ≤ d ∧ d ≤ dayStart + 86399
   | _ => false)

/-- Lines 630-719 of main.py, `optimize_schedule` for one user: fetch the
day's candidate documents through the query filter, convert them, and run
the scoring/allocation pipeline.  `date_day` is the day index denoted by
the "YYYY-MM-DD" request parameter; `datetime.fromisoformat(date)` is
midnight of that day, `86400 * date_day` epoch seconds. -/
def optimize_schedule (store_docs : List TaskDoc) (stored_free_slots : List Slot)
    (now : ℚ) (date_day : ℤ) : Except PyError OptimizeResult :=
  let target_date : ℚ := 86400 * (date_day : ℚ)
  let tasks := (store_docs.filter (queryKeeps target_date)).map document_to_task
  run_pipeline tasks stored_free_slots now target_date

/-- Names the assignment dictionary built in the success branch of
`allocate_task_to_slot` (lines 821-828) for chosen window `s`, so that
theorems can refer to it. -/
def mkAssignment (task : Task) (base : ℚ) (s : Slot) (e : ℚ) : Assignment :=
  { task_id := task.id
    task_title := task.title
    scheduled_start := base + 60 * (s.startMin : ℚ)
    scheduled_end := base + 60 * (s.startMin : ℚ) + 3600 * e
    duration_hours := e
    priority_score := task.priority_score.getD 0 }

/-- Names the chosen window after line 819 advances its `start_time`. -/
def consumeSlot (s : Slot) (e : ℚ) : Slot :=
  { s with startMin := advancedStartMin s.startMin e }

/- Concrete inputs used by the claim-level examples and counterexamples. -/

/-- Example task A of the end-to-end scenario: priority 1, deadline six
hours past epoch, three estimated hours, academic, high energy. -/
def cTaskA : Task :=
  { id := "A", title := "Task A", category := some "academic",
    priority := .val 1, deadline := .val 21600, estimated_hours := .val 3,
    energy_level := some "high", status := "todo", priority_score := none }

/-- Example task B of the end-to-end scenario: priority 3, deadline thirty
days past epoch, two estimated hours, personal, low energy. -/
def cTaskB : Task :=
  { id := "B", title := "Task B", category := some "personal",
    priority := .val 3, deadline := .val 2592000, estimated_hours := .val 2,
    energy_level := some "low", status := "todo", priority_score := none }

/-- Task A as a stored document. -/
def cDocA : TaskDoc :=
  { id := "A", title := some "Task A", category := some "academic",
    priority := .val 1, deadline := .val 21600, estimated_hours := .val 3,
    energy_level := some "high", status := some "todo" }

/-- Task B as a stored document. -/
def cDocB : TaskDoc :=
  { id := "B", title := some "Task B", category := some "personal",
    priority := .val 3, deadline := .val 2592000, estimated_hours := .val 2,
    energy_level := some "low", status := some "todo" }

/-- A task whose `estimated_hours` is 0. -/
def cTaskZero : Task :=
  { id := "t0", title := "T0", category := some "",
    priority := .val 3, deadline := .val 0, estimated_hours := .val 0,
    energy_level := some "medium", status := "todo", priority_score := none }

/-- A task estimated at 1/200 of an hour (18 seconds), below the one-minute
resolution of the window's "HH:MM" `start_time`. -/
def cTaskTiny : Task := { cTaskZero with estimated_hours := .val (1/200) }

/-- A task whose stored priority is the integer -10 (nothing in
`calculate_priority_score` restricts the priority range). -/
def cTaskNegPri : Task :=
  { id := "x", title := "X", category := some "academic",
    priority := .val (-10), deadline := .val 0, estimated_hours := .val 1,
    energy_level := some "low", status := "todo", priority_score := none }

/-- A task whose stored `estimated_hours` is non-numeric while `deadline`
and `priority` are well-formed. -/
def cTaskBadHours : Task := { cTaskZero with estimated_hours := .invalid }

/-- A two-hour task used to exercise first-fit skipping. -/
def cTaskTwo : Task := { cTaskZero with estimated_hours := .val 2 }

/-- A three-hour task. -/
def cTaskThree : Task := { cTaskZero with estimated_hours := .val 3 }

/-- A stored document with no `estimated_hours` attribute. -/
def cDocNoHours : TaskDoc :=
  { id := "n", title := some "N", category := none,
    priority := .val 2, deadline := .val 3600, estimated_hours := .missing,
    energy_level := none, status := some "todo" }

/- Unfolding and inversion lemmas for the allocation scan. -/

theorem allocGo_cons_fit (task : Task) (base : ℚ) (slot : Slot)
    (rest : List Slot) (e : ℚ)
    (h : get_estimated_hours task.estimated_hours = some e)
    (hfit : e ≤ slotDurationHours slot) :
    allocGo task base (slot :: rest) =
      .ok (some (mkAssignment task base slot e), consumeSlot slot e :: rest) := by
  simp only [allocGo, h, ge_iff_le, hfit, if_true, mkAssignment, consumeSlot]

theorem allocGo_cons_nofit (task : Task) (base : ℚ) (slot : Slot)
    (rest : List Slot) (e : ℚ)
    (h : get_estimated_hours task.estimated_hours = some e)
    (hnofit : slotDurationHours slot < e) :
    allocGo task base (slot :: rest) =
      match allocGo task base rest with
      | .error err => .error err
      | .ok (r, rest') => .ok (r, slot :: rest') := by
  simp only [allocGo, h, ge_iff_le, if_neg (not_le.mpr hnofit)]

theorem allocGo_none_of_small (task : Task) (base : ℚ) (e : ℚ)
    (h : get_estimated_hours task.estimated_hours = some e) :
    ∀ slots : List Slot, (∀ s ∈ slots, slotDurationHours s < e) →
      allocGo task base slots = .ok (none, slots)
  | [], _ => rfl
  | slot :: rest, hall => by
    rw [allocGo_cons_nofit task base slot rest e h (hall slot (by simp))]
    rw [allocGo_none_of_small task base e h rest
      (fun s hs => hall s (List.mem_cons_of_mem _ hs))]

theorem allocGo_found (task : Task) (base : ℚ) (e : ℚ)
    (h : get_estimated_hours task.estimated_hours = some e)
    (w : Slot) (post : List Slot) (hw : e ≤ slotDurationHours w) :
    ∀ pre : List Slot, (∀ s ∈ pre, slotDurationHours s < e) →
      allocGo task base (pre ++ w :: post) =
        .ok (some (mkAssignment task base w e),
          pre ++ consumeSlot w e :: post)
  | [], _ => by
    simpa using allocGo_cons_fit task base w post e h hw
  | slot :: pre, hpre => by
    rw [List.cons_append,
      allocGo_cons_nofit task base slot (pre ++ w :: post) e h
        (hpre slot (by simp)),
      allocGo_found task base e h w post hw pre
        (fun s hs => hpre s (List.mem_cons_of_mem _ hs))]
    rfl

theorem allocGo_none_inv (task : Task) (base : ℚ) (e : ℚ)
    (h : get_estimated_hours task.estimated_hours = some e) :
    ∀ slots slots' : List Slot,
      allocGo task base slots = .ok (none, slots') →
      slots' = slots ∧ ∀ s ∈ slots, slotDurationHours s < e
  | [], slots', hres => by
    refine ⟨?_, by simp⟩
    simpa [allocGo] using hres.symm
  | slot :: rest, slots', hres => by
    by_cases hfit : e ≤ slotDurationHours slot
    · rw [allocGo_cons_fit task base slot rest e h hfit] at hres
      simp at hres
    · rw [allocGo_cons_nofit task base slot rest e h (not_le.mp hfit)] at hres
      rcases hr : allocGo task base rest with err | ⟨r, rest'⟩
      · rw [hr] at hres; exact absurd hres (by simp)
      · rw [hr] at hres
        obtain ⟨rfl, rfl⟩ : none = r ∧ slots' = slot :: rest' := by
          simpa using hres.symm
        rcases allocGo_none_inv task base e h rest rest' hr with ⟨rfl, hall⟩
        refine ⟨rfl, ?_⟩
        intro s hs
        rcases List.mem_cons.mp hs with rfl | hs
        · exact not_le.mp hfit
        · exact hall s hs

theorem allocGo_some_inv (task : Task) (base : ℚ) (e : ℚ)
    (h : get_estimated_hours task.estimated_hours = some e) :
    ∀ slots slots' : List Slot, ∀ a : Assignment,
      allocGo task base slots = .ok (some a, slots') →
      ∃ pre w post, slots = pre ++ w :: post ∧
        (∀ s ∈ pre, slotDurationHours s < e) ∧
        e ≤ slotDurationHours w ∧
        a = mkAssignment task base w e ∧
        slots' = pre ++ consumeSlot w e :: post
  | [], slots', a, hres => by
    exact absurd hres (by simp [allocGo])
  | slot :: rest, slots', a, hres => by
    by_cases hfit : e ≤ slotDurationHours slot
    · rw [allocGo_cons_fit task base slot rest e h hfit] at hres
      obtain ⟨ha, hs⟩ : mkAssignment task base slot e = a ∧
          consumeSlot slot e :: rest = slots' := by
        simpa using hres
      exact ⟨[], slot, rest, by simp, by simp, hfit, ha.symm, hs.symm⟩
    · rw [allocGo_cons_nofit task base slot rest e h (not_le.mp hfit)] at hres
      rcases hr : allocGo task base rest with err | ⟨r, rest'⟩
      · rw [hr] at hres; exact absurd hres (by simp)
      · rw [hr] at hres
        obtain ⟨hra, rfl⟩ : some a = r ∧ slots' = slot :: rest' := by
          simpa using hres.symm
        rcases hra.symm with rfl
        rcases allocGo_some_inv task base e h rest rest' a hr with
          ⟨pre, w, post, rfl, hpre, hw, ha, rfl⟩
        refine ⟨slot :: pre, w, post, by simp, ?_, hw, ha, by simp⟩
        intro s hs
        rcases List.mem_cons.mp hs with rfl | hs
        · exact not_le.mp hfit
        · exact hpre s hs

theorem allocGo_some_of_exists (task : Task) (base : ℚ) (e : ℚ)
    (h : get_estimated_hours task.estimated_hours = some e) :
    ∀ slots : List Slot, (∃ s ∈ slots, e ≤ slotDurationHours s) →
      ∃ a slots', allocGo task base slots = .ok (some a, slots')
  | [], hex => by simp at hex
  | slot :: rest, hex => by
    by_cases hfit : e ≤ slotDurationHours slot
    · exact ⟨_, _, allocGo_cons_fit task base slot rest e h hfit⟩
    · have hex' : ∃ s ∈ rest, e ≤ slotDurationHours s := by
        rcases hex with ⟨s, hs, hds⟩
        rcases List.mem_cons.mp hs with rfl | hs
        · exact absurd hds hfit
        · exact ⟨s, hs, hds⟩
      rcases allocGo_some_of_exists task base e h rest hex' with ⟨a, slots', ha⟩
      refine ⟨a, slot :: slots', ?_⟩
      rw [allocGo_cons_nofit task base slot rest e h (not_le.mp hfit), ha]

/- Specification-side scoring formula, written from the claim's wording,
to be compared with the source-derived scorer. -/

/-- Step function of hours-until-deadline as the specification words it:
at most 1h gives 1.0, at most 6h gives 0.9, at most 24h gives 0.8, at most
48h gives 0.6, at most 168h gives 0.4, else 0.2. -/
def spec_urgency (hours : ℚ) : ℚ :=
  if hours ≤ 1 then 1.0
  else if hours ≤ 6 then 0.9
  else if hours ≤ 24 then 0.8
  else if hours ≤ 48 then 0.6
  else if hours ≤ 168 then 0.4
  else 0.2

/-- Category factor as the specification words it: academic 1.0, work 0.8,
personal 0.6, unknown 0.5. -/
def spec_category (category : String) : ℚ :=
  if category = "academic" then 1.0
  else if category = "work" then 0.8
  else if category = "personal" then 0.6
  else 0.5

/-- Current-energy bucket as the specification words it: hour in [6,12)
gives high, [12,18) gives medium, else low. -/
def spec_bucket (hour : ℤ) : String :=
  if 6 ≤ hour ∧ hour < 12 then "high"
  else if 12 ≤ hour ∧ hour < 18 then "medium"
  else "low"

/-- Energy-match lookup as the specification words it: the source's 3x3
table indexed by current bucket then task energy, an unknown task energy
looked up as 0.5. -/
def spec_energy_match (bucket task_energy : String) : ℚ :=
  if bucket = "high" then
    (if task_energy = "high" then 1.0
     else if task_energy = "medium" then 0.7
     else if task_energy = "low" then 0.3
     else 0.5)
  else if bucket = "medium" then
    (if task_energy = "high" then 0.7
     else if task_energy = "medium" then 1.0
     else if task_energy = "low" then 0.5
     else 0.5)
  else if bucket = "low" then
    (if task_energy = "high" then 0.3
     else if task_energy = "medium" then 0.5
     else if task_energy = "low" then 1.0
     else 0.5)
  else 0.5

/-- The claim's five-factor weighted sum: each factor times its weight,
the five weighted values summed and rounded to four decimal places. -/
def spec_score (deadline : ℚ) (priority : ℤ) (category task_energy : String)
    (now target_date : ℚ) : ℚ :=
  round4 (0.35 * spec_urgency (max 0 ((deadline - now) / 3600)) +
    0.25 * ((6 - (priority : ℚ)) / 5) +
    0.15 * spec_category category +
    0.15 * spec_energy_match (spec_bucket (hourOf target_date)) task_energy +
    0.10 * 0.5)

/- Helper lemmas about the scorer. -/

theorem calc_ok_closed (task : Task) (now target_date d : ℚ) (p : ℤ)
    (hd : task.deadline = .val d) (hp : task.priority = .val p) :
    calculate_priority_score task now target_date =
      .ok (round4 (urgency_score (max 0 ((d - now) / 3600)) * 0.35 +
        (6 - (p : ℚ)) / 5 * 0.25 +
        category_scores (task.category.getD "") * 0.15 +
        energy_scores (current_energy_of (hourOf target_date))
          (task.energy_level.getD "medium") * 0.15 + 0.5 * 0.10)) := by
  simp only [calculate_priority_score, hd, hp]

theorem urgency_mem (h : ℚ) : 1/5 ≤ urgency_score h ∧ urgency_score h ≤ 1 := by
  unfold urgency_score; split_ifs <;> norm_num

theorem category_mem (c : String) :
    1/2 ≤ category_scores c ∧ category_scores c ≤ 1 := by
  unfold category_scores; split_ifs <;> norm_num

theorem energy_mem (a b : String) :
    3/10 ≤ energy_scores a b ∧ energy_scores a b ≤ 1 := by
  unfold energy_scores; split_ifs <;> norm_num

theorem round4_bounds (q : ℚ) (h0 : 29/100 ≤ q) (h1 : q ≤ 19/20) :
    0 ≤ round4 q ∧ round4 q ≤ 1 := by
  unfold round4
  have hl : (2900 : ℤ) ≤ round (q * 10000) := by
    rw [round_eq, Int.le_floor]
    push_cast
    linarith
  have hr : round (q * 10000) ≤ 9500 := by
    rw [round_eq]
    have hm : (⌊q * 10000 + 1/2⌋ : ℤ) ≤ ⌊(9500.5 : ℚ)⌋ := Int.floor_mono (by linarith)
    have h95 : (⌊(9500.5 : ℚ)⌋ : ℤ) = 9500 := by norm_num [Int.floor_eq_iff]
    omega
  constructor
  · have hc : (0:ℚ) ≤ ((round (q * 10000) : ℤ) : ℚ) := by
      exact_mod_cast le_trans (by norm_num) hl
    exact div_nonneg hc (by norm_num)
  · rw [div_le_one (by norm_num)]
    exact_mod_cast hr.trans (by norm_num)

/-- C1: for every task whose deadline parses and whose priority is an
integer, `calculate_priority_score` returns exactly the sum of the five
weighted sub-scores described by the claim — deadline urgency (weight
0.35, step function of `max 0 (deadline - now)` in hours with past
deadlines clamped into the lowest tier), importance (weight 0.25, value
`(6 - priority)/5`), category (weight 0.15), energy match (weight 0.15,
bucket from the target hour), and the constant preference 0.5 at weight
0.10 — rounded to 4 decimal places. -/
theorem C1_score_is_weighted_sum (task : Task) (now target_date d : ℚ) (p : ℤ)
    (hd : task.deadline = .val d) (hp : task.priority = .val p) :
    calculate_priority_score task now target_date =
      .ok (spec_score d p (task.category.getD "")
        (task.energy_level.getD "medium") now target_date) := by
  rw [calc_ok_closed task now target_date d p hd hp]
  unfold spec_score
  congr 1
  have hu : spec_urgency (max 0 ((d - now) / 3600)) =
      urgency_score (max 0 ((d - now) / 3600)) := rfl
  have hc : spec_category (task.category.getD "") =
      category_scores (task.category.getD "") := rfl
  have he : spec_energy_match (spec_bucket (hourOf target_date))
      (task.energy_level.getD "medium") =
      energy_scores (current_energy_of (hourOf target_date))
        (task.energy_level.getD "medium") := rfl
  rw [hu, hc, he]
  ring_nf

/-- Witness for C1 at a concrete task: deadline six hours past epoch,
priority 1, evaluated at `now = 0` on day 0. -/
theorem C1_witness :
    calculate_priority_score cTaskA 0 0 =
      .ok (spec_score 21600 1 (cTaskA.category.getD "")
        (cTaskA.energy_level.getD "medium") 0 0) :=
  C1_score_is_weighted_sum cTaskA 0 0 21600 1 rfl rfl

/-- C6 counterexample: the scorer restricts neither priority nor anything
else, and the stored integer priority -10 (urgent deadline, academic
category, matching low energy) drives the total to 1.5, outside [0,1] —
the claim fails for arbitrary priorities. -/
theorem C6_counterexample :
    cTaskNegPri.priority = .val (-10) ∧
    calculate_priority_score cTaskNegPri 0 0 = .ok (3/2) ∧
    ¬ ((3/2 : ℚ) ≤ 1) := by
  refine ⟨rfl, ?_, by norm_num⟩
  norm_num +decide [calculate_priority_score, cTaskNegPri, urgency_score,
    category_scores, energy_scores, current_energy_of, hourOf, dayStartSec,
    round4, round_eq]

/-- C6 amended: for every task whose deadline parses and whose priority is
an integer in the data model's range 1..5, the returned score lies in the
closed interval [0, 1] (for any deadline, category, energy level and
reference times). -/
theorem C6_score_in_unit_interval (task : Task) (now target_date d : ℚ)
    (p : ℤ) (hd : task.deadline = .val d) (hp : task.priority = .val p)
    (hp1 : 1 ≤ p) (hp5 : p ≤ 5) :
    ∃ q : ℚ, calculate_priority_score task now target_date = .ok q ∧
      0 ≤ q ∧ q ≤ 1 := by
  refine ⟨_, calc_ok_closed task now target_date d p hd hp, ?_⟩
  apply round4_bounds
  all_goals
    obtain ⟨hu1, hu2⟩ := urgency_mem (max 0 ((d - now) / 3600))
    obtain ⟨hc1, hc2⟩ := category_mem (task.category.getD "")
    obtain ⟨he1, he2⟩ := energy_mem (current_energy_of (hourOf target_date))
      (task.energy_level.getD "medium")
    have hq1 : (1:ℚ) ≤ (p:ℚ) := by exact_mod_cast hp1
    have hq5 : (p:ℚ) ≤ 5 := by exact_mod_cast hp5
    nlinarith

/-- Witness for C6 at the concrete task A (priority 1). -/
theorem C6_witness :
    ∃ q : ℚ, calculate_priority_score cTaskA 0 0 = .ok q ∧ 0 ≤ q ∧ q ≤ 1 :=
  C6_score_in_unit_interval cTaskA 0 0 21600 1 rfl rfl
    (by norm_num) (by norm_num)

/-- C8 counterexample: a task with a well-formed deadline and priority but
a non-numeric `estimated_hours` is scored without any error — scoring
never examines `estimated_hours`, so the claimed "raises if and only if
... estimated_hours is non-numeric" fails in the only-if direction it
adds. -/
theorem C8_counterexample :
    cTaskBadHours.estimated_hours = .invalid ∧
    calculate_priority_score cTaskBadHours 0 0 = .ok (7/10) := by
  refine ⟨rfl, ?_⟩
  norm_num +decide [calculate_priority_score, cTaskBadHours, cTaskZero,
    urgency_score, category_scores, energy_scores, current_energy_of,
    hourOf, dayStartSec, round4, round_eq]

/-- C8 amended: `calculate_priority_score` is a pure function of its
arguments and succeeds exactly when the task's deadline is present and
parseable and its priority is present and numeric; `estimated_hours` is
never examined by scoring (a stored non-numeric value first fails later,
at allocation). -/
theorem C8_scoring_error_iff (task : Task) (now target_date : ℚ) :
    (∃ q, calculate_priority_score task now target_date = .ok q) ↔
      ((∃ d, task.deadline = .val d) ∧ (∃ p, task.priority = .val p)) := by
  cases hd : task.deadline <;> cases hp : task.priority <;>
    simp [calculate_priority_score, hd, hp]

/-- C9: the target datetime `optimize_schedule` passes to scoring is the
parse of the "YYYY-MM-DD" date string, i.e. midnight `86400 * date_day`;
its hour is 0, the derived current-energy bucket is "low", and every task
with energy_level "high" takes energy match 0.3, a weighted contribution
of 0.045, whatever the wall-clock `now` is. -/
theorem C9_high_energy_always_low_bucket (date_day : ℤ) (task : Task)
    (now d : ℚ) (p : ℤ)
    (hd : task.deadline = .val d) (hp : task.priority = .val p)
    (he : task.energy_level = some "high") :
    hourOf (86400 * (date_day : ℚ)) = 0 ∧
    current_energy_of (hourOf (86400 * (date_day : ℚ))) = "low" ∧
    energy_scores "low" "high" * 0.15 = 0.045 ∧
    calculate_priority_score task now (86400 * (date_day : ℚ)) =
      .ok (round4 (urgency_score (max 0 ((d - now) / 3600)) * 0.35 +
        (6 - (p : ℚ)) / 5 * 0.25 +
        category_scores (task.category.getD "") * 0.15 +
        0.045 + 0.5 * 0.10)) := by
  have hfl : (⌊(86400 * (date_day : ℚ)) / 86400⌋ : ℤ) = date_day := by
    rw [mul_comm, mul_div_assoc]
    norm_num
  have h0 : hourOf (86400 * (date_day : ℚ)) = 0 := by
    unfold hourOf dayStartSec
    rw [hfl]
    norm_num
  have hen : energy_scores
      (current_energy_of (hourOf (86400 * (date_day : ℚ)))) "high" = 3/10 := by
    rw [h0]
    norm_num +decide [current_energy_of, energy_scores]
  refine ⟨h0, by rw [h0]; norm_num +decide [current_energy_of],
    by norm_num +decide [energy_scores], ?_⟩
  rw [calc_ok_closed task now _ d p hd hp, he]
  congr 2
  rw [show (Option.getD (some "high") "medium") = "high" from rfl, hen]
  norm_num

/-- Witness for C9: day 0, task A, an arbitrary afternoon `now`. -/
theorem C9_witness :
    hourOf (86400 * ((0:ℤ) : ℚ)) = 0 ∧
    current_energy_of (hourOf (86400 * ((0:ℤ) : ℚ))) = "low" ∧
    energy_scores "low" "high" * 0.15 = 0.045 ∧
    calculate_priority_score cTaskA 50000 (86400 * ((0:ℤ) : ℚ)) =
      .ok (round4 (urgency_score (max 0 ((21600 - 50000) / 3600)) * 0.35 +
        (6 - ((1:ℤ) : ℚ)) / 5 * 0.25 +
        category_scores (cTaskA.category.getD "") * 0.15 +
        0.045 + 0.5 * 0.10)) :=
  C9_high_energy_always_low_bucket 0 cTaskA 50000 21600 1 rfl rfl rfl

/-- C2: the allocator scans the window list in its given order, never
sorting it; when every window's duration is below the task's estimated
hours it returns nothing and the list is unchanged, and when some window
qualifies it picks the first such window and only advances that window's
`start_time` — its `end_time`, every other window, and the list length
are untouched, so no window is split or removed. -/
theorem C2_first_fit_frame (task : Task) (target_date e : ℚ)
    (h : get_estimated_hours task.estimated_hours = some e) :
    (∀ slots : List Slot, (∀ s ∈ slots, slotDurationHours s < e) →
      allocate_task_to_slot task slots target_date = .ok (none, slots)) ∧
    (∀ (pre : List Slot) (w : Slot) (post : List Slot),
      (∀ s ∈ pre, slotDurationHours s < e) → e ≤ slotDurationHours w →
      allocate_task_to_slot task (pre ++ w :: post) target_date =
        .ok (some (mkAssignment task (dayStartSec target_date) w e),
          pre ++ consumeSlot w e :: post)) := by
  constructor
  · intro slots hall
    exact allocGo_none_of_small task _ e h slots hall
  · intro pre w post hpre hw
    exact allocGo_found task _ e h w post hw pre hpre

/-- Witness for C2: a two-hour task skips a one-hour window and consumes
the first window that fits. -/
theorem C2_witness :
    allocate_task_to_slot cTaskTwo [⟨480, 540⟩, ⟨600, 1320⟩] 0 =
      .ok (some (mkAssignment cTaskTwo (dayStartSec 0) ⟨600, 1320⟩ 2),
        [⟨480, 540⟩] ++ consumeSlot ⟨600, 1320⟩ 2 :: []) :=
  (C2_first_fit_frame cTaskTwo 0 2 rfl).2 [⟨480, 540⟩] ⟨600, 1320⟩ []
    (by intro s hs
        rw [List.mem_singleton] at hs
        subst hs
        norm_num [slotDurationHours])
    (by norm_num [slotDurationHours])

/-- C3 counterexample: a task with `estimated_hours = 0` (which is ≤ 0)
receives a successful allocation from the default 08:00-22:00 window —
the allocator has no positivity guard, `slot_duration >= 0` always holds
for a well-formed window. -/
theorem C3_counterexample :
    cTaskZero.estimated_hours = .val 0 ∧ (0:ℚ) ≤ 0 ∧
    allocate_task_to_slot cTaskZero [⟨480, 1320⟩] 0 =
      .ok (some { task_id := "t0", task_title := "T0",
                  scheduled_start := 28800, scheduled_end := 28800,
                  duration_hours := 0, priority_score := 0 },
           [⟨480, 1320⟩]) := by
  refine ⟨rfl, le_refl 0, ?_⟩
  norm_num [allocate_task_to_slot, allocGo, cTaskZero, get_estimated_hours,
    slotDurationHours, advancedStartMin, dayStartSec]

/-- C3 amended: allocation fails (returning nothing with the window list
unchanged) exactly when every window's duration is smaller than the
task's estimated hours; hence a task with `estimated_hours ≤ 0` is
successfully allocated whenever the list contains any well-formed window
(start ≤ end), rather than never being allocated. -/
theorem C3_nonpositive_hours_allocation (task : Task) (slots : List Slot)
    (target_date e : ℚ)
    (h : get_estimated_hours task.estimated_hours = some e) :
    (allocate_task_to_slot task slots target_date = .ok (none, slots) ↔
      ∀ s ∈ slots, slotDurationHours s < e) ∧
    (e ≤ 0 → (∃ s ∈ slots, s.startMin ≤ s.endMin) →
      ∃ a slots', allocate_task_to_slot task slots target_date =
        .ok (some a, slots')) := by
  constructor
  · constructor
    · intro hres
      exact (allocGo_none_inv task _ e h slots slots hres).2
    · exact allocGo_none_of_small task _ e h slots
  · intro he hex
    apply allocGo_some_of_exists task _ e h slots
    rcases hex with ⟨s, hs, hwf⟩
    refine ⟨s, hs, he.trans ?_⟩
    unfold slotDurationHours
    have hnn : (0:ℚ) ≤ (s.endMin : ℚ) - s.startMin := by
      rw [sub_nonneg]
      exact_mod_cast hwf
    exact div_nonneg (mul_nonneg hnn (by norm_num)) (by norm_num)

/-- Witness for C3: the zero-hours task against the default window. -/
theorem C3_witness :
    (allocate_task_to_slot cTaskZero [⟨480, 1320⟩] 0 =
        .ok (none, [⟨480, 1320⟩]) ↔
      ∀ s ∈ [(⟨480, 1320⟩ : Slot)], slotDurationHours s < 0) ∧
    ((0:ℚ) ≤ 0 → (∃ s ∈ [(⟨480, 1320⟩ : Slot)], s.startMin ≤ s.endMin) →
      ∃ a slots', allocate_task_to_slot cTaskZero [⟨480, 1320⟩] 0 =
        .ok (some a, slots')) :=
  C3_nonpositive_hours_allocation cTaskZero [⟨480, 1320⟩] 0 0 rfl

/-- C4: every successful allocation's interval has length exactly the
task's estimated hours (as an hour fraction of the timestamp difference),
starts at the chosen window's pre-allocation start, ends no later than
that window's end, and its duration never exceeds the window's
pre-allocation duration; only the chosen window is updated. -/
theorem C4_assignment_within_window (task : Task) (slots slots' : List Slot)
    (target_date e : ℚ) (a : Assignment)
    (h : get_estimated_hours task.estimated_hours = some e)
    (hres : allocate_task_to_slot task slots target_date = .ok (some a, slots')) :
    (a.scheduled_end - a.scheduled_start) / 3600 = e ∧
    a.duration_hours = e ∧
    ∃ pre w post, slots = pre ++ w :: post ∧
      slots' = pre ++ consumeSlot w e :: post ∧
      dayStartSec target_date + 60 * (w.startMin : ℚ) ≤ a.scheduled_start ∧
      a.scheduled_end ≤ dayStartSec target_date + 60 * (w.endMin : ℚ) ∧
      a.duration_hours ≤ slotDurationHours w := by
  rcases allocGo_some_inv task _ e h slots slots' a hres with
    ⟨pre, w, post, rfl, hpre, hw, rfl, rfl⟩
  have hmul : e * 3600 ≤ ((w.endMin : ℚ) - w.startMin) * 60 := by
    have := (le_div_iff₀ (by norm_num : (0:ℚ) < 3600)).mp hw
    linarith
  refine ⟨by unfold mkAssignment; ring, rfl, pre, w, post, rfl, rfl, ?_, ?_, hw⟩
  · unfold mkAssignment
    simp
  · unfold mkAssignment
    simp only
    linarith

/-- Witness for C4 at a concrete allocation: the two-hour task consuming
the second window. -/
theorem C4_witness :
    ((mkAssignment cTaskTwo (dayStartSec 0) ⟨600, 1320⟩ 2).scheduled_end -
        (mkAssignment cTaskTwo (dayStartSec 0) ⟨600, 1320⟩ 2).scheduled_start) /
        3600 = 2 ∧
    (mkAssignment cTaskTwo (dayStartSec 0) ⟨600, 1320⟩ 2).duration_hours = 2 ∧
    ∃ pre w post, [(⟨480, 540⟩ : Slot), ⟨600, 1320⟩] = pre ++ w :: post ∧
      [⟨480, 540⟩, consumeSlot ⟨600, 1320⟩ 2] = pre ++ consumeSlot w 2 :: post ∧
      dayStartSec 0 + 60 * (w.startMin : ℚ) ≤
        (mkAssignment cTaskTwo (dayStartSec 0) ⟨600, 1320⟩ 2).scheduled_start ∧
      (mkAssignment cTaskTwo (dayStartSec 0) ⟨600, 1320⟩ 2).scheduled_end ≤
        dayStartSec 0 + 60 * (w.endMin : ℚ) ∧
      (mkAssignment cTaskTwo (dayStartSec 0) ⟨600, 1320⟩ 2).duration_hours ≤
        slotDurationHours w :=
  C4_assignment_within_window cTaskTwo [⟨480, 540⟩, ⟨600, 1320⟩]
    [⟨480, 540⟩, consumeSlot ⟨600, 1320⟩ 2] 0 2
    (mkAssignment cTaskTwo (dayStartSec 0) ⟨600, 1320⟩ 2) rfl
    (by exact (allocGo_found cTaskTwo (dayStartSec 0) 2 rfl ⟨600, 1320⟩ []
          (by norm_num [slotDurationHours]) [⟨480, 540⟩]
          (by intro s hs
              rw [List.mem_singleton] at hs
              subst hs
              norm_num [slotDurationHours])))

/-- C5 counterexample: one allocation of a 1/200-hour (18-second) task
from the 08:00-22:00 window succeeds, yet the "HH:MM" write-back truncates
the advance to whole minutes, so the window's remaining duration stays 14
hours instead of the claimed 14 - 1/200; the 18-second shortfall repeats
per allocation, far beyond floating-point tolerance. -/
theorem C5_counterexample :
    allocateAll 0 [cTaskTiny] [⟨480, 1320⟩] =
      .ok ([{ task_id := "t0", task_title := "T0", scheduled_start := 28800,
              scheduled_end := 28818, duration_hours := 1/200,
              priority_score := 0 }],
           [⟨480, 1320⟩]) ∧
    slotDurationHours ⟨480, 1320⟩ = 14 ∧
    (14 : ℚ) ≠ 14 - 1/200 := by
  refine ⟨?_, by norm_num [slotDurationHours], by norm_num⟩
  norm_num [allocateAll, allocate_task_to_slot, allocGo, cTaskTiny, cTaskZero,
    get_estimated_hours, slotDurationHours, advancedStartMin, dayStartSec]

/-- C5 amended: allocating N tasks sequentially into one day-valid window
removes exactly the sum of their estimated hours from its remaining
duration — with exact rational equality, no floating tolerance needed —
provided every estimate is a whole, non-negative number of minutes (the
"HH:MM" write-back truncates anything finer; see the counterexample). -/
theorem C5_sequential_drain (target_date : ℚ) :
    ∀ (tasks : List Task) (es : List ℚ),
    List.Forall₂ (fun t e => get_estimated_hours t.estimated_hours = some e)
      tasks es →
    (∀ e ∈ es, ∃ m : ℕ, e * 60 = (m : ℚ)) →
    ∀ s : Slot, 0 ≤ s.startMin → s.endMin ≤ 1439 →
    es.sum ≤ slotDurationHours s →
    ∃ (as : List Assignment) (s' : Slot),
      allocateAll target_date tasks [s] = .ok (as, [s']) ∧
      as.length = tasks.length ∧
      s'.endMin = s.endMin ∧
      slotDurationHours s' = slotDurationHours s - es.sum := by
  intro tasks es hte
  induction hte with
  | nil =>
    intro _ s _ _ _
    exact ⟨[], s, rfl, rfl, rfl, by simp⟩
  | cons ht hrest ih =>
    rename_i t e ts es'
    intro hmin s h0 h1 hsum
    rcases hmin e (by simp) with ⟨m, hm⟩
    have hmin' : ∀ x ∈ es', ∃ k : ℕ, x * 60 = (k : ℚ) :=
      fun x hx => hmin x (List.mem_cons_of_mem _ hx)
    have hnn : ∀ x ∈ es', 0 ≤ x := by
      intro x hx
      rcases hmin' x hx with ⟨k, hk⟩
      have h0x : (0:ℚ) ≤ x * 60 := by rw [hk]; positivity
      linarith
    have hsnn : (0:ℚ) ≤ es'.sum := List.sum_nonneg hnn
    rw [List.sum_cons] at hsum
    have hfit : e ≤ slotDurationHours s := by linarith
    have halloc := allocGo_found t (dayStartSec target_date) e ht s [] hfit []
      (by simp)
    simp only [List.nil_append] at halloc
    have hfloor : ⌊e * 60⌋ = (m : ℤ) := by
      rw [hm]
      exact Int.floor_natCast m
    have h60 : e * 60 ≤ (s.endMin : ℚ) - s.startMin := by
      unfold slotDurationHours at hfit
      have := (le_div_iff₀ (by norm_num : (0:ℚ) < 3600)).mp hfit
      linarith
    have hmle : (m : ℚ) ≤ (s.endMin : ℚ) - s.startMin := by
      rw [← hm]
      exact h60
    have hmle' : s.startMin + (m : ℤ) ≤ s.endMin := by
      have hc : ((s.startMin + (m:ℤ) : ℤ) : ℚ) ≤ ((s.endMin : ℤ) : ℚ) := by
        push_cast
        linarith
      exact_mod_cast hc
    have hcons : consumeSlot s e = ⟨s.startMin + (m : ℤ), s.endMin⟩ := by
      unfold consumeSlot advancedStartMin
      have hlt : s.startMin + (m : ℤ) < 1440 := by omega
      have hge : (0:ℤ) ≤ s.startMin + (m : ℤ) := by
        have := Int.natCast_nonneg m
        omega
      rw [hfloor]
      congr 1
      exact Int.emod_eq_of_lt hge hlt
    have he' : e = (m : ℚ) / 60 := by
      rw [eq_div_iff (by norm_num : (60:ℚ) ≠ 0)]
      exact hm
    have hstep : slotDurationHours ⟨s.startMin + (m : ℤ), s.endMin⟩ =
        slotDurationHours s - e := by
      unfold slotDurationHours
      push_cast
      rw [he']
      ring
    have hge2 : (0:ℤ) ≤ s.startMin + (m : ℤ) := by
      have := Int.natCast_nonneg m
      omega
    rcases ih hmin' ⟨s.startMin + (m : ℤ), s.endMin⟩ hge2 h1
      (by rw [hstep]; linarith) with ⟨as, s', hall, hlen, hend, hdur⟩
    refine ⟨mkAssignment t (dayStartSec target_date) s e :: as, s', ?_,
      by simp [hlen], hend, ?_⟩
    · simp only [allocateAll, allocate_task_to_slot, halloc, hcons, hall]
    · rw [hdur, hstep, List.sum_cons]
      ring

/-- Witness for C5: a two-hour and a three-hour task drain the
08:00-22:00 window from 14 to 9 remaining hours. -/
theorem C5_witness :
    ∃ (as : List Assignment) (s' : Slot),
      allocateAll 0 [cTaskTwo, cTaskThree] [⟨480, 1320⟩] = .ok (as, [s']) ∧
      as.length = [cTaskTwo, cTaskThree].length ∧
      s'.endMin = (⟨480, 1320⟩ : Slot).endMin ∧
      slotDurationHours s' =
        slotDurationHours ⟨480, 1320⟩ - [(2:ℚ), 3].sum :=
  C5_sequential_drain 0 [cTaskTwo, cTaskThree] [2, 3]
    (List.Forall₂.cons rfl (List.Forall₂.cons rfl List.Forall₂.nil))
    (by intro e he
        rw [List.mem_cons, List.mem_singleton] at he
        rcases he with rfl | rfl
        · exact ⟨120, by norm_num⟩
        · exact ⟨180, by norm_num⟩)
    ⟨480, 1320⟩ (by norm_num) (by norm_num)
    (by norm_num [slotDurationHours, List.sum_cons, List.sum_nil])

/-- C7 counterexample: run end-to-end, the optimize operation first
filters stored tasks to deadlines inside `[date 00:00, date 23:59:59]`;
task B's deadline thirty days out fails that filter, so only task A is
scored and allocated — `allocated_tasks` is 1, not the claimed 2. -/
theorem C7_counterexample :
    queryKeeps 0 cDocB = false ∧
    optimize_schedule [cDocA, cDocB] [⟨480, 1320⟩] 0 0 =
      .ok { date := 0,
            optimized_tasks := [
              { task_id := "A", task_title := "Task A",
                scheduled_start := 28800, scheduled_end := 39600,
                duration_hours := 3, priority_score := 81/100 }],
            total_tasks := 1, allocated_tasks := 1 } ∧
    (1 : ℕ) ≠ 2 := by
  refine ⟨?_, ?_, by norm_num⟩
  · norm_num [queryKeeps, cDocB]
  · norm_num +decide [optimize_schedule, queryKeeps, cDocA, cDocB,
      document_to_task, List.filter, run_pipeline, calculate_priority_score,
      urgency_score, category_scores, energy_scores, current_energy_of, hourOf,
      dayStartSec, round4, round_eq, sortByScoreDesc, insertByScore, scoreOf,
      allocateAll, allocate_task_to_slot, allocGo, get_estimated_hours,
      slotDurationHours, advancedStartMin, List.mapM, List.mapM.loop,
      Except.map, Except.instMonad, Except.bind, Except.pure,
      Bind.bind, Functor.map, Pure.pure, Seq.seq]

/-- C7 amended: once both tasks reach the scoring/allocation pipeline
(the per-day deadline fetch filter, which excludes B's +30-day deadline,
being bypassed), the example behaves as claimed: A scores 0.81, B scores
0.51, A is allocated 08:00-11:00, B 11:00-13:00, and
`allocated_tasks = 2`. -/
theorem C7_example_pipeline :
    calculate_priority_score cTaskA 0 0 = .ok (81/100) ∧
    calculate_priority_score cTaskB 0 0 = .ok (51/100) ∧
    ((81:ℚ)/100 > 51/100) ∧
    run_pipeline [cTaskA, cTaskB] [⟨480, 1320⟩] 0 0 =
      .ok { date := 0,
            optimized_tasks := [
              { task_id := "A", task_title := "Task A",
                scheduled_start := 28800, scheduled_end := 39600,
                duration_hours := 3, priority_score := 81/100 },
              { task_id := "B", task_title := "Task B",
                scheduled_start := 39600, scheduled_end := 46800,
                duration_hours := 2, priority_score := 51/100 }],
            total_tasks := 2, allocated_tasks := 2 } := by
  refine ⟨?_, ?_, by norm_num, ?_⟩
  · norm_num +decide [calculate_priority_score, cTaskA, urgency_score,
      category_scores, energy_scores, current_energy_of, hourOf, dayStartSec,
      round4, round_eq]
  · norm_num +decide [calculate_priority_score, cTaskB, urgency_score,
      category_scores, energy_scores, current_energy_of, hourOf, dayStartSec,
      round4, round_eq]
  · norm_num +decide [run_pipeline, calculate_priority_score, cTaskA, cTaskB,
      urgency_score, category_scores, energy_scores, current_energy_of, hourOf,
      dayStartSec, round4, round_eq, sortByScoreDesc, insertByScore, scoreOf,
      allocateAll, allocate_task_to_slot, allocGo, get_estimated_hours,
      slotDurationHours, advancedStartMin, List.mapM, List.mapM.loop,
      Except.map, Except.instMonad, Except.bind, Except.pure,
      Bind.bind, Functor.map, Pure.pure, Seq.seq]

/-- C10 counterexample: a document without `estimated_hours` converts to a
zero-hours task, but allocation does not always land on the first window:
a reversed leading window `22:00-08:00` has duration -14 < 0, fails
`slot_duration >= 0`, and the task is placed on the second window instead
(scheduled at 08:00, not at the first window's 22:00 start). -/
theorem C10_counterexample :
    (document_to_task cDocNoHours).estimated_hours = .val 0 ∧
    slotDurationHours ⟨1320, 480⟩ < 0 ∧
    allocate_task_to_slot (document_to_task cDocNoHours)
        [⟨1320, 480⟩, ⟨480, 1320⟩] 0 =
      .ok (some
        { task_id := "n", task_title := "N", scheduled_start := 28800,
          scheduled_end := 28800, duration_hours := 0, priority_score := 0 },
        [⟨1320, 480⟩, ⟨480, 1320⟩]) ∧
    (28800 : ℚ) ≠ dayStartSec 0 + 60 * ((1320 : ℤ) : ℚ) := by
  refine ⟨rfl, by norm_num [slotDurationHours], ?_, by norm_num [dayStartSec]⟩
  norm_num [allocate_task_to_slot, allocGo, document_to_task, cDocNoHours,
    get_estimated_hours, slotDurationHours, advancedStartMin, dayStartSec]

/-- C10 amended: a stored document lacking `estimated_hours` converts to a
task with `estimated_hours = 0`, and allocation for that task succeeds at
the first window whenever the list is non-empty and its first window is
well-formed (day-valid start not after its end) — every such window's
duration is ≥ 0 — yielding a zero-duration assignment with
`scheduled_end = scheduled_start` and leaving the window's `start_time`
at its previous value.  A malformed (reversed) first window is skipped
instead (see the counterexample). -/
theorem C10_zero_hours_first_window (doc : TaskDoc)
    (hmiss : doc.estimated_hours = .missing)
    (s : Slot) (rest : List Slot) (target_date : ℚ)
    (hwf : s.startMin ≤ s.endMin) (h0 : 0 ≤ s.startMin)
    (h1 : s.startMin < 1440) :
    (document_to_task doc).estimated_hours = .val 0 ∧
    allocate_task_to_slot (document_to_task doc) (s :: rest) target_date =
      .ok (some
        { task_id := doc.id, task_title := doc.title.getD "",
          scheduled_start := dayStartSec target_date + 60 * (s.startMin : ℚ),
          scheduled_end := dayStartSec target_date + 60 * (s.startMin : ℚ),
          duration_hours := 0, priority_score := 0 },
        s :: rest) := by
  have heh : (document_to_task doc).estimated_hours = .val 0 := by
    simp [document_to_task, hmiss]
  refine ⟨heh, ?_⟩
  have hge : get_estimated_hours (document_to_task doc).estimated_hours =
      some 0 := by
    rw [heh]
    rfl
  have hfit : (0:ℚ) ≤ slotDurationHours s := by
    unfold slotDurationHours
    have hnn : (0:ℚ) ≤ (s.endMin : ℚ) - s.startMin := by
      rw [sub_nonneg]
      exact_mod_cast hwf
    exact div_nonneg (mul_nonneg hnn (by norm_num)) (by norm_num)
  have halloc := allocGo_cons_fit (document_to_task doc)
    (dayStartSec target_date) s rest 0 hge hfit
  rw [allocate_task_to_slot, halloc]
  have hslot : consumeSlot s 0 = s := by
    unfold consumeSlot advancedStartMin
    have hfl : ⌊(0:ℚ) * 60⌋ = 0 := by norm_num
    rw [hfl, add_zero]
    have : s.startMin % 1440 = s.startMin := Int.emod_eq_of_lt h0 h1
    cases s
    simp_all
  rw [hslot]
  have hasg : mkAssignment (document_to_task doc)
      (dayStartSec target_date) s 0 =
      { task_id := doc.id, task_title := doc.title.getD "",
        scheduled_start := dayStartSec target_date + 60 * (s.startMin : ℚ),
        scheduled_end := dayStartSec target_date + 60 * (s.startMin : ℚ),
        duration_hours := 0, priority_score := 0 } := by
    unfold mkAssignment
    simp [document_to_task]
  rw [hasg]

/-- Witness for C10: the concrete document with no `estimated_hours`
against the well-formed default window. -/
theorem C10_witness :
    (document_to_task cDocNoHours).estimated_hours = .val 0 ∧
    allocate_task_to_slot (document_to_task cDocNoHours) [⟨480, 1320⟩] 0 =
      .ok (some
        { task_id := cDocNoHours.id, task_title := cDocNoHours.title.getD "",
          scheduled_start := dayStartSec 0 + 60 * (((⟨480, 1320⟩ : Slot).startMin : ℤ) : ℚ),
          scheduled_end := dayStartSec 0 + 60 * (((⟨480, 1320⟩ : Slot).startMin : ℤ) : ℚ),
          duration_hours := 0, priority_score := 0 },
        [⟨480, 1320⟩]) :=
  C10_zero_hours_first_window cDocNoHours rfl ⟨480, 1320⟩ [] 0
    (by decide) (by decide) (by decide)

end TaskMgmt
